import Mathlib

/-!
Shallow embedding of the admin authentication subsystem of the Evolvouz
repository (src/server/adminAuth.ts, with its collaborators in
src/server/storage.ts and the route registration in src/server/routes.ts).

External libraries (bcrypt, jsonwebtoken, express-rate-limit) are modelled
by deterministic Lean functions capturing their documented observable
behaviour; the repository's own code is translated statement by statement.
Time is a natural number of seconds for JWT expiry and of milliseconds for
the rate limiter window (matching the units each library uses).
-/

namespace Evolvouz

/-! ### Data model: user records and the credential store
Mirrors the `users` table (shared/schema.ts) and the storage interface
`getUser` / `getUserByEmail` / `upsertUser` (server/storage.ts).  The store
is a list of rows; `upsertUser` is insert-or-update keyed by `id`
(`onConflictDoUpdate` target `users.id`). -/

structure User where
  id : String
  email : String
  firstName : Option String
  lastName : Option String
  role : String
  passwordHash : Option String
  profileImageUrl : Option String
deriving Repr, DecidableEq

def getUser (store : List User) (id : String) : Option User :=
  store.find? (fun u => u.id == id)

def getUserByEmail (store : List User) (email : String) : Option User :=
  store.find? (fun u => u.email == email)

def upsertUser (store : List User) (u : User) : List User :=
  if store.any (fun v => v.id == u.id) then
    store.map (fun v => if v.id == u.id then u else v)
  else
    store ++ [u]

/-- Store mutation used to express privilege revocation: change the role of
the account with the given id. -/
def updateRole (store : List User) (id newRole : String) : List User :=
  store.map (fun u => if u.id == id then { u with role := newRole } else u)

/-- Store mutation used to express a profile change: change the email of the
account with the given id. -/
def updateEmail (store : List User) (id newEmail : String) : List User :=
  store.map (fun u => if u.id == id then { u with email := newEmail } else u)

/-! ### bcrypt model
`hashPassword` / `verifyPassword` (adminAuth.ts lines 71-79) delegate to
bcrypt.  We model the hash as a deterministic injective encoding; the only
property the subsystem relies on is that `verifyPassword p h` holds exactly
when `h` was produced by hashing `p`. -/

def hashPassword (password : String) : String :=
  "bcrypt12$" ++ password

def verifyPassword (password hashedPassword : String) : Bool :=
  hashedPassword == hashPassword password

/-! ### jsonwebtoken model
`jwt.sign(payload, secret, { expiresIn: '24h' })` and
`jwt.verify(token, secret)`.  A token is either a well-formed signed token
carrying its payload, issue time and signing secret, or a malformed blob.
`jwt.verify` throws on a malformed token, a signature made with a different
secret, or an expired token; we model the thrown errors with `Except`. -/

structure JWTPayload where
  userId : String
  email : String
  role : String
  type : String
deriving Repr, DecidableEq

inductive Token where
  | signed (payload : JWTPayload) (issuedAt : Nat) (secret : String)
  | malformed (raw : String)
deriving Repr, DecidableEq

/-- `JWT_EXPIRES_IN = '24h'`, in seconds as jsonwebtoken encodes `exp`. -/
def jwtExpirySeconds : Nat := 24 * 60 * 60

inductive JwtError where
  | malformedToken
  | invalidSignature
  | tokenExpired
deriving Repr, DecidableEq

def jwtSign (payload : JWTPayload) (secret : String) (now : Nat) : Token :=
  Token.signed payload now secret

def jwtVerify (token : Token) (secret : String) (now : Nat) :
    Except JwtError JWTPayload :=
  match token with
  | Token.malformed _ => Except.error JwtError.malformedToken
  | Token.signed payload issuedAt sig =>
    if sig != secret then Except.error JwtError.invalidSignature
    else if issuedAt + jwtExpirySeconds ≤ now then
      Except.error JwtError.tokenExpired
    else Except.ok payload

/-! ### Environment configuration
`process.env` lookups; a JS env var is falsy when unset or empty. -/

structure Env where
  nodeEnv : Option String
  jwtSecret : Option String
  adminEmail : Option String
  adminPassword : Option String
deriving Repr, DecidableEq

def truthy : Option String → Bool
  | none => false
  | some s => !(s == "")

/-- JS `process.env.X || fallback`. -/
def envOr : Option String → String → String
  | none, fallback => fallback
  | some s, fallback => if s == "" then fallback else s

def isProduction (env : Env) : Bool :=
  env.nodeEnv == some "production"

def devJwtSecret : String :=
  "dev-jwt-secret-key-for-testing-32-chars-minimum-required-secure"

/-- Module-load computation of `JWT_SECRET` (adminAuth.ts lines 23-26): in
production with no explicit secret the module throws before any request is
served; otherwise the env value or, when unset, the development fallback is
used. -/
def resolveJwtSecret (env : Env) : Except String String :=
  if isProduction env && !truthy env.jwtSecret then
    Except.error "JWT_SECRET environment variable is required in production"
  else
    Except.ok (envOr env.jwtSecret devJwtSecret)

/-! ### Token issue / verify (adminAuth.ts lines 82-100) -/

structure AdminUser where
  id : String
  email : String
  role : String
deriving Repr, DecidableEq

def generateToken (user : AdminUser) (secret : String) (now : Nat) : Token :=
  jwtSign
    { userId := user.id, email := user.email, role := user.role,
      type := "admin" }
    secret now

/-- `verifyToken` wraps `jwt.verify` in try/catch and returns null on any
failure. -/
def verifyToken (token : Token) (secret : String) (now : Nat) :
    Option JWTPayload :=
  match jwtVerify token secret now with
  | Except.ok payload => some payload
  | Except.error _ => none

/-! ### Authorization middleware (adminAuth.ts lines 103-164)
A request to an admin-gated route carries an optional `admin_token` cookie.
The middleware either rejects with an HTTP status, a message and a
clear-cookie side effect, or attaches the decoded payload and proceeds. -/

structure AuthRequest where
  cookieToken : Option Token
deriving Repr, DecidableEq

inductive AuthResult where
  | reject (status : Nat) (message : String) (clearCookie : Bool)
  | proceed (adminUser : JWTPayload)
deriving Repr, DecidableEq

def authenticateAdmin (store : List User) (req : AuthRequest)
    (secret : String) (now : Nat) : AuthResult :=
  match req.cookieToken with
  | none => AuthResult.reject 401 "Admin authentication required" false
  | some token =>
    match verifyToken token secret now with
    | none => AuthResult.reject 403 "Admin access required" false
    | some decoded =>
      if decoded.type != "admin" || decoded.role != "admin" then
        AuthResult.reject 403 "Admin access required" false
      else
        match getUser store decoded.userId with
        | none => AuthResult.reject 403 "Admin access revoked" true
        | some currentUser =>
          if currentUser.role != "admin" then
            AuthResult.reject 403 "Admin privileges revoked" true
          else
            AuthResult.proceed decoded

/-! ### Bootstrap (adminAuth.ts lines 167-209)
In production a missing `ADMIN_PASSWORD` throws (rethrown by the catch
block, aborting startup).  Otherwise: look up the configured admin email;
if a row exists, return with no write; if not, upsert a fresh admin row
whose `passwordHash` holds the hash of the configured (or, outside
production, default) password. -/

def defaultAdminEmail : String := "admin@evolvo.uz"

def defaultAdminPassword : String := "SecureAdmin123!"

def bootstrapAdminRecord (adminEmail adminPassword : String) (now : Nat) :
    User :=
  { id := "admin-" ++ toString now
    email := adminEmail
    firstName := some "Admin"
    lastName := some "User"
    role := "admin"
    passwordHash := some (hashPassword adminPassword)
    profileImageUrl := none }

def initializeAdminUser (env : Env) (store : List User) (now : Nat) :
    Except String (List User) :=
  let adminEmail := envOr env.adminEmail defaultAdminEmail
  if isProduction env && !truthy env.adminPassword then
    Except.error
      "ADMIN_PASSWORD environment variable is required in production for security"
  else
    let adminPassword := envOr env.adminPassword defaultAdminPassword
    match getUserByEmail store adminEmail with
    | some _ => Except.ok store
    | none =>
      Except.ok (upsertUser store
        (bootstrapAdminRecord adminEmail adminPassword now))

/-! ### Login handler (adminAuth.ts lines 212-300)
Email format check is the regex from line 34; the JS falsy checks on the
body fields and on the stored hash are rendered as emptiness tests. -/

def isValidEmail (email : String) : Bool :=
  let cs := email.data
  let localPart := cs.takeWhile (fun c => !(c == '@'))
  let domain := (cs.dropWhile (fun c => !(c == '@'))).tail
  cs.count '@' == 1 &&
  !localPart.isEmpty && !domain.isEmpty &&
  cs.all (fun c => !c.isWhitespace) &&
  domain.tail.dropLast.contains '.'

inductive LoginResult where
  | badRequest (message : String)
  | unauthorized (message : String)
  | ok (user : AdminUser) (token : Token)
deriving Repr, DecidableEq

def adminLogin (store : List User) (email password : String)
    (secret : String) (now : Nat) : LoginResult :=
  if email == "" || password == "" then
    LoginResult.badRequest "Email and password required"
  else if !isValidEmail email then
    LoginResult.badRequest "Invalid email format"
  else
    match getUserByEmail store email with
    | none => LoginResult.unauthorized "Invalid credentials"
    | some user =>
      if user.role != "admin" then
        LoginResult.unauthorized "Invalid credentials"
      else
        match user.passwordHash with
        | none => LoginResult.unauthorized "Invalid credentials"
        | some storedHashedPassword =>
          if storedHashedPassword == "" then
            LoginResult.unauthorized "Invalid credentials"
          else if !verifyPassword password storedHashedPassword then
            LoginResult.unauthorized "Invalid credentials"
          else
            LoginResult.ok
              { id := user.id, email := user.email, role := user.role }
              (generateToken
                { id := user.id, email := user.email, role := user.role }
                secret now)

/-! ### Logout handler (adminAuth.ts lines 303-319) and its route
`POST /api/auth/logout` is registered without the auth middleware
(routes.ts line 28), so the handler runs for any request state.  It clears
the cookie unconditionally and responds 200. -/

structure LogoutResponse where
  status : Nat
  message : String
  cookieCleared : Bool
deriving Repr, DecidableEq

def adminLogout (_cookie : Option Token) : LogoutResponse × Option Token :=
  (⟨200, "Logout successful", true⟩, none)

def logoutEndpoint (_store : List User) (cookie : Option Token)
    (_secret : String) (_now : Nat) : LogoutResponse × Option Token :=
  adminLogout cookie

/-! ### Current-admin endpoint (adminAuth.ts lines 322-333)
`GET /api/auth/admin` runs `authenticateAdmin` then `getCurrentAdmin`
(routes.ts line 29); the handler answers from the decoded token payload
attached by the middleware, not from a fresh store read. -/

inductive MeResult where
  | denied (status : Nat) (message : String) (clearCookie : Bool)
  | ok (id email role : String)
deriving Repr, DecidableEq

def getCurrentAdmin (adminUser : Option JWTPayload) : MeResult :=
  match adminUser with
  | none => MeResult.denied 401 "Not authenticated" false
  | some payload => MeResult.ok payload.userId payload.email payload.role

def adminMeEndpoint (store : List User) (req : AuthRequest)
    (secret : String) (now : Nat) : MeResult :=
  match authenticateAdmin store req secret now with
  | AuthResult.reject status message clear =>
    MeResult.denied status message clear
  | AuthResult.proceed decoded => getCurrentAdmin (some decoded)

/-! ### Rate limiter (adminAuth.ts lines 37-50)
The route `POST /api/auth/login` is wrapped in `loginRateLimit`
(routes.ts line 27), an express-rate-limit instance with a 15-minute
window, `max: 5` and `skipSuccessfulRequests: true`.  The library's
memory store keeps, per client key, a hit counter and the expiry time of
the current window; each request first increments the counter (opening a
fresh window when the previous one has expired), is rejected with 429 and
the configured message object when the counter exceeds `max`, and — with
`skipSuccessfulRequests` — has its own hit decremented again when the
response finishes with a status below 400. -/

structure RateLimitConfig where
  windowMs : Nat
  maxHits : Nat
  skipSuccessfulRequests : Bool
  errorCode : String
  message : String
deriving Repr, DecidableEq

def loginRateLimitConfig : RateLimitConfig :=
  { windowMs := 15 * 60 * 1000
    maxHits := 5
    skipSuccessfulRequests := true
    errorCode := "RATE_LIMITED"
    message := "Too many login attempts. Please try again in 15 minutes." }

structure RateState where
  hits : Nat
  resetAt : Nat
deriving Repr, DecidableEq

def rateInit : RateState := { hits := 0, resetAt := 0 }

inductive RateDecision where
  | allowed
  | limited (status : Nat) (errorCode : String) (message : String)
deriving Repr, DecidableEq

/-- One request from a single client key at time `t`; `success` tells
whether the wrapped handler would answer with a status below 400. -/
def rateRequest (cfg : RateLimitConfig) (st : RateState) (t : Nat)
    (success : Bool) : RateDecision × RateState :=
  let st1 : RateState :=
    if t < st.resetAt then { st with hits := st.hits + 1 }
    else { hits := 1, resetAt := t + cfg.windowMs }
  if cfg.maxHits < st1.hits then
    (RateDecision.limited 429 cfg.errorCode cfg.message, st1)
  else
    (RateDecision.allowed,
     if cfg.skipSuccessfulRequests && success then
       { st1 with hits := st1.hits - 1 }
     else st1)

/-- Run a sequence of requests, each a pair of arrival time and success
flag, returning the per-request decisions and the final state. -/
def runRequests (cfg : RateLimitConfig) (st : RateState) :
    List (Nat × Bool) → List RateDecision × RateState
  | [] => ([], st)
  | (t, s) :: rest =>
    let (d, st1) := rateRequest cfg st t s
    let (ds, st2) := runRequests cfg st1 rest
    (d :: ds, st2)

/-- Modelled from the spec: the effective count the spec attributes to an
address is the number of non-successful attempts since the last successful
login ("a successful login resets the effective count for that address"). -/
def claimEffectiveCount (history : List Bool) : Nat :=
  (history.reverse.takeWhile (fun success => !success)).length

/-- Modelled from the spec: the number of non-successful attempts an
address has "recorded in the trailing 15-minute sliding window" at time
`t` — attempts with a timestamp in the half-open interval stretching
`window` milliseconds back from `t`. -/
def trailingFailureCount (history : List (Nat × Bool)) (t window : Nat) :
    Nat :=
  (history.filter (fun p =>
    !p.2 && decide (t < p.1 + window) && decide (p.1 ≤ t))).length

/-! ### Helper lemmas -/

theorem verifyToken_generateToken_valid (user : AdminUser) (secret : String)
    (issuedAt now : Nat) (h : now < issuedAt + jwtExpirySeconds) :
    verifyToken (generateToken user secret issuedAt) secret now =
      some { userId := user.id, email := user.email, role := user.role,
             type := "admin" } := by
  simp [verifyToken, generateToken, jwtSign, jwtVerify, Nat.not_le.mpr h]

theorem verifyToken_generateToken_expired (user : AdminUser) (secret : String)
    (issuedAt now : Nat) (h : issuedAt + jwtExpirySeconds ≤ now) :
    verifyToken (generateToken user secret issuedAt) secret now = none := by
  simp [verifyToken, generateToken, jwtSign, jwtVerify, h]

theorem find?_map_update (store : List User) (id : String) (f : User → User)
    (hf : ∀ u, (f u).id = u.id) :
    (store.map (fun u => if u.id == id then f u else u)).find?
        (fun u => u.id == id) =
      (store.find? (fun u => u.id == id)).map f := by
  induction store with
  | nil => rfl
  | cons u rest ih =>
    simp only [List.map_cons]
    by_cases h : u.id = id
    · have hb : (u.id == id) = true := beq_iff_eq.mpr h
      have hfb : ((f u).id == id) = true := by rw [hf]; exact hb
      rw [if_pos hb, List.find?_cons_of_pos (p := fun (v : User) => v.id == id) _ hfb,
        List.find?_cons_of_pos (p := fun (v : User) => v.id == id) _ hb,
        Option.map_some']
    · have hb : ¬((u.id == id) = true) := by simp [h]
      rw [if_neg hb, List.find?_cons_of_neg (p := fun (v : User) => v.id == id) _ hb,
        List.find?_cons_of_neg (p := fun (v : User) => v.id == id) _ hb, ih]

theorem getUser_updateRole (store : List User) (id newRole : String) :
    getUser (updateRole store id newRole) id =
      (getUser store id).map (fun u => { u with role := newRole }) := by
  simpa [getUser, updateRole] using
    find?_map_update store id (fun u => { u with role := newRole })
      (fun u => rfl)

theorem getUser_updateEmail (store : List User) (id newEmail : String) :
    getUser (updateEmail store id newEmail) id =
      (getUser store id).map (fun u => { u with email := newEmail }) := by
  simpa [getUser, updateEmail] using
    find?_map_update store id (fun u => { u with email := newEmail })
      (fun u => rfl)

example : isValidEmail "" = false := by decide
example : isValidEmail "a@b.c" = true := by decide
example : isValidEmail "admin@evolvo.uz" = true := by decide
example : isValidEmail "a@bc" = false := by decide
example : isValidEmail "a@.c" = false := by decide

/-! ### Claim theorems -/

/-- C4: for every admin account, verifying a token produced by
`generateToken` returns a payload whose userId, email, role and type fields
equal the claims embedded at issue time, at any time strictly within 24
hours of issuance; at or after the 24-hour expiry, verification returns
invalid (none). -/
theorem token_roundtrip_24h (user : AdminUser) (secret : String)
    (issuedAt now : Nat) :
    (now < issuedAt + jwtExpirySeconds →
      verifyToken (generateToken user secret issuedAt) secret now =
        some { userId := user.id, email := user.email, role := user.role,
               type := "admin" })
    ∧ (issuedAt + jwtExpirySeconds ≤ now →
      verifyToken (generateToken user secret issuedAt) secret now = none) :=
  ⟨fun h => verifyToken_generateToken_valid user secret issuedAt now h,
   fun h => verifyToken_generateToken_expired user secret issuedAt now h⟩

/-- Witness for C4 at a concrete account, issue time 0, checked at times 10
(inside the 24-hour window) and 86400 (exactly at expiry). -/
theorem token_roundtrip_24h_witness :
    verifyToken
        (generateToken { id := "u1", email := "a@b.c", role := "admin" }
          "s" 0) "s" 10 =
      some { userId := "u1", email := "a@b.c", role := "admin",
             type := "admin" }
    ∧ verifyToken
        (generateToken { id := "u1", email := "a@b.c", role := "admin" }
          "s" 0) "s" 86400 = none :=
  ⟨(token_roundtrip_24h { id := "u1", email := "a@b.c", role := "admin" }
      "s" 0 10).1 (by decide),
   (token_roundtrip_24h { id := "u1", email := "a@b.c", role := "admin" }
      "s" 0 86400).2 (by decide)⟩

/-- C5: `verifyToken` is total: whenever the underlying `jwt.verify` throws
(malformed token, bad signature, expired token) the result is the invalid
value `none`, and whenever it succeeds the payload is returned; no
exception propagates to the caller. -/
theorem verifyToken_totality (token : Token) (secret : String) (now : Nat) :
    (∀ e, jwtVerify token secret now = Except.error e →
      verifyToken token secret now = none)
    ∧ (∀ payload, jwtVerify token secret now = Except.ok payload →
      verifyToken token secret now = some payload) := by
  refine ⟨fun e h => ?_, fun payload h => ?_⟩ <;> simp [verifyToken, h]

/-- Witness for C5 on a concrete malformed token and a concrete
wrong-secret token. -/
theorem verifyToken_totality_witness :
    verifyToken (Token.malformed "garbage") "s" 0 = none
    ∧ verifyToken
        (Token.signed
          { userId := "u1", email := "a@b.c", role := "admin",
            type := "admin" } 0 "other")
        "s" 0 = none :=
  ⟨(verifyToken_totality (Token.malformed "garbage") "s" 0).1
      JwtError.malformedToken rfl,
   (verifyToken_totality
      (Token.signed
        { userId := "u1", email := "a@b.c", role := "admin",
          type := "admin" } 0 "other") "s" 0).1
      JwtError.invalidSignature rfl⟩

/-- C8: `adminLogout` is idempotent: for any request state — any store,
any cookie (valid session or not) — the call clears the `admin_token`
cookie and responds 200 with no error, and a second call on the resulting
state produces the same cleared-cookie 200 outcome. -/
theorem logout_idempotent (store : List User) (cookie : Option Token)
    (secret : String) (now : Nat) :
    logoutEndpoint store cookie secret now =
      ({ status := 200, message := "Logout successful",
         cookieCleared := true }, none)
    ∧ logoutEndpoint store (logoutEndpoint store cookie secret now).2
        secret now =
      ({ status := 200, message := "Logout successful",
         cookieCleared := true }, none) :=
  ⟨rfl, rfl⟩

/-- C1: `authenticateAdmin` realises exactly the five-state machine: no
cookie token yields 401; an unverifiable token, or one whose type or role
field is not "admin", yields 403 without touching the cookie; a verified
token whose subject is absent from the store yields 403 with the cookie
cleared; a verified token whose subject exists with a stored role other
than "admin" yields 403 with the cookie cleared; a verified token whose
subject exists with stored role "admin" attaches the decoded identity and
proceeds.  In particular, after an account's role is changed away from
"admin" in the store, the next request carrying a still-unexpired token
for that account is rejected 403 with the cookie cleared. -/
theorem authMiddleware_state_machine (store : List User) (req : AuthRequest)
    (secret : String) (now : Nat) :
    (req.cookieToken = none →
      authenticateAdmin store req secret now =
        AuthResult.reject 401 "Admin authentication required" false)
    ∧ (∀ token, req.cookieToken = some token →
        verifyToken token secret now = none →
        authenticateAdmin store req secret now =
          AuthResult.reject 403 "Admin access required" false)
    ∧ (∀ token decoded, req.cookieToken = some token →
        verifyToken token secret now = some decoded →
        (decoded.type ≠ "admin" ∨ decoded.role ≠ "admin") →
        authenticateAdmin store req secret now =
          AuthResult.reject 403 "Admin access required" false)
    ∧ (∀ token decoded, req.cookieToken = some token →
        verifyToken token secret now = some decoded →
        decoded.type = "admin" → decoded.role = "admin" →
        getUser store decoded.userId = none →
        authenticateAdmin store req secret now =
          AuthResult.reject 403 "Admin access revoked" true)
    ∧ (∀ token decoded currentUser, req.cookieToken = some token →
        verifyToken token secret now = some decoded →
        decoded.type = "admin" → decoded.role = "admin" →
        getUser store decoded.userId = some currentUser →
        currentUser.role ≠ "admin" →
        authenticateAdmin store req secret now =
          AuthResult.reject 403 "Admin privileges revoked" true)
    ∧ (∀ token decoded currentUser, req.cookieToken = some token →
        verifyToken token secret now = some decoded →
        decoded.type = "admin" → decoded.role = "admin" →
        getUser store decoded.userId = some currentUser →
        currentUser.role = "admin" →
        authenticateAdmin store req secret now = AuthResult.proceed decoded)
    ∧ (∀ (u : User) (newRole : String) (issuedAt : Nat),
        getUser store u.id = some u → u.role = "admin" →
        newRole ≠ "admin" → now < issuedAt + jwtExpirySeconds →
        authenticateAdmin (updateRole store u.id newRole)
          { cookieToken := some (generateToken
              { id := u.id, email := u.email, role := u.role }
              secret issuedAt) }
          secret now =
          AuthResult.reject 403 "Admin privileges revoked" true) := by
  refine ⟨?_, ?_, ?_, ?_, ?_, ?_, ?_⟩
  · intro h
    simp [authenticateAdmin, h]
  · intro token h hv
    simp [authenticateAdmin, h, hv]
  · intro token decoded h hv hbad
    rcases hbad with hb | hb <;> simp [authenticateAdmin, h, hv, hb]
  · intro token decoded h hv ht hr hg
    simp [authenticateAdmin, h, hv, ht, hr, hg]
  · intro token decoded currentUser h hv ht hr hg hcur
    simp [authenticateAdmin, h, hv, ht, hr, hg, hcur]
  · intro token decoded currentUser h hv ht hr hg hcur
    simp [authenticateAdmin, h, hv, ht, hr, hg, hcur]
  · intro u newRole issuedAt hu hrole hnew hexp
    have hv := verifyToken_generateToken_valid
      { id := u.id, email := u.email, role := u.role } secret issuedAt now
      hexp
    simp only [hrole] at hv
    have hg : getUser (updateRole store u.id newRole) u.id =
        some { u with role := newRole } := by
      rw [getUser_updateRole, hu, Option.map_some']
    simp [authenticateAdmin, hrole, hv, hg, hnew]

/-- Witness for C1: a concrete store holding one admin account; after its
role is downgraded to "user", a request with its still-valid token is
rejected 403 with the cookie cleared. -/
theorem authMiddleware_state_machine_witness :
    authenticateAdmin
      (updateRole
        [{ id := "u1", email := "a@b.c", firstName := none,
           lastName := none, role := "admin", passwordHash := none,
           profileImageUrl := none }] "u1" "user")
      { cookieToken := some (generateToken
          { id := "u1", email := "a@b.c", role := "admin" } "s" 0) }
      "s" 1 = AuthResult.reject 403 "Admin privileges revoked" true :=
  (authMiddleware_state_machine
      [{ id := "u1", email := "a@b.c", firstName := none, lastName := none,
         role := "admin", passwordHash := none, profileImageUrl := none }]
      { cookieToken := none } "s" 1).2.2.2.2.2.2
    { id := "u1", email := "a@b.c", firstName := none, lastName := none,
      role := "admin", passwordHash := none, profileImageUrl := none }
    "user" 0 rfl rfl (by decide) (by decide)

/-- Shared helper: with a well-formed email and a non-empty password,
every failing path of `adminLogin` — unknown email, non-admin role, unset
stored hash, wrong password — answers 401 with the same message. -/
theorem adminLogin_invalid_credentials_cases (store : List User)
    (email password secret : String) (now : Nat)
    (hemail : isValidEmail email = true) (hpw : password ≠ "") :
    (getUserByEmail store email = none →
      adminLogin store email password secret now =
        LoginResult.unauthorized "Invalid credentials")
    ∧ (∀ user, getUserByEmail store email = some user →
      user.role ≠ "admin" →
      adminLogin store email password secret now =
        LoginResult.unauthorized "Invalid credentials")
    ∧ (∀ user, getUserByEmail store email = some user →
      user.passwordHash = none →
      adminLogin store email password secret now =
        LoginResult.unauthorized "Invalid credentials")
    ∧ (∀ user stored, getUserByEmail store email = some user →
      user.passwordHash = some stored →
      verifyPassword password stored = false →
      adminLogin store email password secret now =
        LoginResult.unauthorized "Invalid credentials") := by
  have he : email ≠ "" := by
    intro h
    rw [h] at hemail
    exact absurd hemail (by decide)
  refine ⟨fun hget => ?_, fun user hget hrole => ?_,
    fun user hget hhash => ?_, fun user stored hget hstored hvp => ?_⟩
  · simp [adminLogin, he, hpw, hemail, hget]
  · simp [adminLogin, he, hpw, hemail, hget, hrole]
  · by_cases hrole : user.role = "admin"
    · simp [adminLogin, he, hpw, hemail, hget, hrole, hhash]
    · simp [adminLogin, he, hpw, hemail, hget, hrole]
  · by_cases hrole : user.role = "admin"
    · by_cases hs : stored = ""
      · simp [adminLogin, he, hpw, hemail, hget, hrole, hstored, hs]
      · simp [adminLogin, he, hpw, hemail, hget, hrole, hstored, hs, hvp]
    · simp [adminLogin, he, hpw, hemail, hget, hrole]

/-- C2: for every login request with a well-formed email and non-empty
password, the four failure cases — account absent, role not "admin",
passwordHash unset, password not verifying — all produce the identical
401 response body "Invalid credentials"; for non-admin accounts and for
accounts with an unset hash this holds for every submitted password. -/
theorem login_uniform_unauthorized (store : List User)
    (email password secret : String) (now : Nat)
    (hemail : isValidEmail email = true) (hpw : password ≠ "") :
    (getUserByEmail store email = none →
      adminLogin store email password secret now =
        LoginResult.unauthorized "Invalid credentials")
    ∧ (∀ user, getUserByEmail store email = some user →
      user.role ≠ "admin" →
      adminLogin store email password secret now =
        LoginResult.unauthorized "Invalid credentials")
    ∧ (∀ user, getUserByEmail store email = some user →
      user.passwordHash = none →
      adminLogin store email password secret now =
        LoginResult.unauthorized "Invalid credentials")
    ∧ (∀ user stored, getUserByEmail store email = some user →
      user.passwordHash = some stored →
      verifyPassword password stored = false →
      adminLogin store email password secret now =
        LoginResult.unauthorized "Invalid credentials") :=
  adminLogin_invalid_credentials_cases store email password secret now
    hemail hpw

/-- Witness for C2: the unknown-email case on the empty store and the
non-admin-role case on a concrete one-user store both yield the same 401
body. -/
theorem login_uniform_unauthorized_witness :
    adminLogin [] "a@b.c" "x" "s" 0 =
      LoginResult.unauthorized "Invalid credentials"
    ∧ adminLogin
        [{ id := "u1", email := "a@b.c", firstName := none,
           lastName := none, role := "user",
           passwordHash := some (hashPassword "x"),
           profileImageUrl := none }] "a@b.c" "x" "s" 0 =
      LoginResult.unauthorized "Invalid credentials" :=
  ⟨(login_uniform_unauthorized [] "a@b.c" "x" "s" 0 (by decide)
      (by decide)).1 rfl,
   (login_uniform_unauthorized
      [{ id := "u1", email := "a@b.c", firstName := none, lastName := none,
         role := "user", passwordHash := some (hashPassword "x"),
         profileImageUrl := none }] "a@b.c" "x" "s" 0 (by decide)
      (by decide)).2.1
    { id := "u1", email := "a@b.c", firstName := none, lastName := none,
      role := "user", passwordHash := some (hashPassword "x"),
      profileImageUrl := none } rfl (by decide)⟩

/-- C3: in production mode, a missing JWT signing secret or a missing admin
bootstrap password aborts startup with a thrown configuration error; the
deterministic fallback secret (and a successful default-password
initialization) is available only outside production. -/
theorem production_failfast_config (env : Env) (store : List User)
    (now : Nat) :
    (isProduction env = true → truthy env.jwtSecret = false →
      resolveJwtSecret env =
        Except.error "JWT_SECRET environment variable is required in production")
    ∧ (isProduction env = true → truthy env.adminPassword = false →
      initializeAdminUser env store now =
        Except.error
          "ADMIN_PASSWORD environment variable is required in production for security")
    ∧ (isProduction env = false →
      resolveJwtSecret env = Except.ok (envOr env.jwtSecret devJwtSecret))
    ∧ (isProduction env = false →
      ∃ newStore, initializeAdminUser env store now = Except.ok newStore) := by
  refine ⟨fun hp hs => ?_, fun hp hpw => ?_, fun hp => ?_, fun hp => ?_⟩
  · simp [resolveJwtSecret, hp, hs]
  · simp [initializeAdminUser, hp, hpw]
  · simp [resolveJwtSecret, hp]
  · cases hcase : getUserByEmail store (envOr env.adminEmail
        defaultAdminEmail) with
    | none =>
      exact ⟨upsertUser store
        (bootstrapAdminRecord (envOr env.adminEmail defaultAdminEmail)
          (envOr env.adminPassword defaultAdminPassword) now),
        by simp [initializeAdminUser, hp, hcase]⟩
    | some u => exact ⟨store, by simp [initializeAdminUser, hp, hcase]⟩

/-- Witness for C3: in a production environment with neither secret nor
password configured, both startup steps abort with their configuration
errors; outside production the fallback secret is used. -/
theorem production_failfast_config_witness :
    resolveJwtSecret
        { nodeEnv := some "production", jwtSecret := none,
          adminEmail := none, adminPassword := none } =
      Except.error "JWT_SECRET environment variable is required in production"
    ∧ initializeAdminUser
        { nodeEnv := some "production", jwtSecret := none,
          adminEmail := none, adminPassword := none } [] 0 =
      Except.error
        "ADMIN_PASSWORD environment variable is required in production for security"
    ∧ resolveJwtSecret
        { nodeEnv := none, jwtSecret := none, adminEmail := none,
          adminPassword := none } =
      Except.ok devJwtSecret :=
  ⟨(production_failfast_config
      { nodeEnv := some "production", jwtSecret := none, adminEmail := none,
        adminPassword := none } [] 0).1 rfl rfl,
   (production_failfast_config
      { nodeEnv := some "production", jwtSecret := none, adminEmail := none,
        adminPassword := none } [] 0).2.1 rfl rfl,
   (production_failfast_config
      { nodeEnv := none, jwtSecret := none, adminEmail := none,
        adminPassword := none } [] 0).2.2.1 rfl⟩

/-- C6: at process start (when production fail-fast does not trigger),
`initializeAdminUser` looks up the configured admin email; if absent it
creates the account via upsert with role "admin" and a passwordHash equal
to the hash of the configured (or, outside production, default) password;
if an account with that email exists, it performs no store write. -/
theorem bootstrap_initializer_contract (env : Env) (store : List User)
    (now : Nat)
    (hstart : (isProduction env && !truthy env.adminPassword) = false) :
    (getUserByEmail store (envOr env.adminEmail defaultAdminEmail) = none →
      initializeAdminUser env store now =
        Except.ok (upsertUser store
          (bootstrapAdminRecord (envOr env.adminEmail defaultAdminEmail)
            (envOr env.adminPassword defaultAdminPassword) now))
      ∧ (bootstrapAdminRecord (envOr env.adminEmail defaultAdminEmail)
          (envOr env.adminPassword defaultAdminPassword) now).role = "admin"
      ∧ (bootstrapAdminRecord (envOr env.adminEmail defaultAdminEmail)
          (envOr env.adminPassword defaultAdminPassword) now).passwordHash =
          some (hashPassword (envOr env.adminPassword defaultAdminPassword))
      ∧ (bootstrapAdminRecord (envOr env.adminEmail defaultAdminEmail)
          (envOr env.adminPassword defaultAdminPassword) now).email =
          envOr env.adminEmail defaultAdminEmail)
    ∧ (∀ u, getUserByEmail store (envOr env.adminEmail defaultAdminEmail) =
        some u →
      initializeAdminUser env store now = Except.ok store) :=
  ⟨fun hget =>
    ⟨by simp [initializeAdminUser, hstart, hget], rfl, rfl, rfl⟩,
   fun u hget => by simp [initializeAdminUser, hstart, hget]⟩

/-- Witness for C6: on the empty store the default admin row is created;
on a store already holding a row with the default admin email nothing is
written. -/
theorem bootstrap_initializer_contract_witness :
    (initializeAdminUser
        { nodeEnv := none, jwtSecret := none, adminEmail := none,
          adminPassword := none } [] 5 =
      Except.ok (upsertUser []
        (bootstrapAdminRecord "admin@evolvo.uz" "SecureAdmin123!" 5))
    ∧ (bootstrapAdminRecord "admin@evolvo.uz" "SecureAdmin123!" 5).role =
        "admin"
    ∧ (bootstrapAdminRecord "admin@evolvo.uz" "SecureAdmin123!"
        5).passwordHash = some (hashPassword "SecureAdmin123!")
    ∧ (bootstrapAdminRecord "admin@evolvo.uz" "SecureAdmin123!" 5).email =
        "admin@evolvo.uz")
    ∧ initializeAdminUser
        { nodeEnv := none, jwtSecret := none, adminEmail := none,
          adminPassword := none }
        [{ id := "u1", email := "admin@evolvo.uz", firstName := none,
           lastName := none, role := "user", passwordHash := none,
           profileImageUrl := none }] 5 =
      Except.ok
        [{ id := "u1", email := "admin@evolvo.uz", firstName := none,
           lastName := none, role := "user", passwordHash := none,
           profileImageUrl := none }] :=
  ⟨(bootstrap_initializer_contract
      { nodeEnv := none, jwtSecret := none, adminEmail := none,
        adminPassword := none } [] 5 rfl).1 rfl,
   (bootstrap_initializer_contract
      { nodeEnv := none, jwtSecret := none, adminEmail := none,
        adminPassword := none }
      [{ id := "u1", email := "admin@evolvo.uz", firstName := none,
         lastName := none, role := "user", passwordHash := none,
         profileImageUrl := none }] 5 rfl).2
    { id := "u1", email := "admin@evolvo.uz", firstName := none,
      lastName := none, role := "user", passwordHash := none,
      profileImageUrl := none } rfl⟩

/-- C9: the bootstrap existence check is keyed on email alone: whenever any
account carrying the configured admin email exists — whatever its role or
passwordHash — the initializer performs no write and leaves the store
unchanged; consequently, when that account's role is not "admin", no
password can authenticate on the admin login path afterwards. -/
theorem bootstrap_email_keyed_noop (env : Env) (store : List User)
    (now : Nat) (u : User)
    (hstart : (isProduction env && !truthy env.adminPassword) = false)
    (hu : getUserByEmail store (envOr env.adminEmail defaultAdminEmail) =
      some u) :
    initializeAdminUser env store now = Except.ok store
    ∧ (u.role ≠ "admin" →
        isValidEmail (envOr env.adminEmail defaultAdminEmail) = true →
        ∀ password secret now2, password ≠ "" →
          adminLogin store (envOr env.adminEmail defaultAdminEmail)
            password secret now2 =
            LoginResult.unauthorized "Invalid credentials") := by
  refine ⟨by simp [initializeAdminUser, hstart, hu], ?_⟩
  intro hrole hvalid password secret now2 hpw
  exact (adminLogin_invalid_credentials_cases store _ password secret now2
    hvalid hpw).2.1 u hu hrole

/-- Witness for C9: a store whose only row carries the default admin
email, role "user" and no passwordHash: bootstrap is a no-op and the admin
login path rejects even the default bootstrap password. -/
theorem bootstrap_email_keyed_noop_witness :
    initializeAdminUser
        { nodeEnv := none, jwtSecret := none, adminEmail := none,
          adminPassword := none }
        [{ id := "u1", email := "admin@evolvo.uz", firstName := none,
           lastName := none, role := "user", passwordHash := none,
           profileImageUrl := none }] 7 =
      Except.ok
        [{ id := "u1", email := "admin@evolvo.uz", firstName := none,
           lastName := none, role := "user", passwordHash := none,
           profileImageUrl := none }]
    ∧ adminLogin
        [{ id := "u1", email := "admin@evolvo.uz", firstName := none,
           lastName := none, role := "user", passwordHash := none,
           profileImageUrl := none }]
        "admin@evolvo.uz" "SecureAdmin123!" "s" 0 =
      LoginResult.unauthorized "Invalid credentials" :=
  ⟨(bootstrap_email_keyed_noop
      { nodeEnv := none, jwtSecret := none, adminEmail := none,
        adminPassword := none }
      [{ id := "u1", email := "admin@evolvo.uz", firstName := none,
         lastName := none, role := "user", passwordHash := none,
         profileImageUrl := none }] 7
      { id := "u1", email := "admin@evolvo.uz", firstName := none,
        lastName := none, role := "user", passwordHash := none,
        profileImageUrl := none } rfl rfl).1,
   (bootstrap_email_keyed_noop
      { nodeEnv := none, jwtSecret := none, adminEmail := none,
        adminPassword := none }
      [{ id := "u1", email := "admin@evolvo.uz", firstName := none,
         lastName := none, role := "user", passwordHash := none,
         profileImageUrl := none }] 7
      { id := "u1", email := "admin@evolvo.uz", firstName := none,
        lastName := none, role := "user", passwordHash := none,
        profileImageUrl := none } rfl rfl).2
    (by decide) (by decide) "SecureAdmin123!" "s" 0 (by decide)⟩

/-- C10: `getCurrentAdmin` answers from the token payload attached by the
middleware, not from a fresh store read: after the account's email is
changed in the store (role staying "admin"), a request with the original
token succeeds and returns the old email embedded in the token, while the
store's fresh record carries the new email. -/
theorem current_admin_from_token_payload (store : List User) (u : User)
    (secret : String) (issuedAt now : Nat) (newEmail : String)
    (hu : getUser store u.id = some u) (hrole : u.role = "admin")
    (hexp : now < issuedAt + jwtExpirySeconds) :
    adminMeEndpoint (updateEmail store u.id newEmail)
      { cookieToken := some (generateToken
          { id := u.id, email := u.email, role := u.role } secret issuedAt) }
      secret now = MeResult.ok u.id u.email u.role
    ∧ getUser (updateEmail store u.id newEmail) u.id =
        some { u with email := newEmail } := by
  have hg : getUser (updateEmail store u.id newEmail) u.id =
      some { u with email := newEmail } := by
    rw [getUser_updateEmail, hu, Option.map_some']
  refine ⟨?_, hg⟩
  have hv := verifyToken_generateToken_valid
    { id := u.id, email := u.email, role := u.role } secret issuedAt now
    hexp
  simp only [hrole] at hv
  simp [adminMeEndpoint, authenticateAdmin, getCurrentAdmin, hrole, hv, hg]

/-- Witness for C10: one admin account whose email is changed from
"old@b.c" to "new@b.c" after issuance; the endpoint still answers with
"old@b.c". -/
theorem current_admin_from_token_payload_witness :
    adminMeEndpoint
      (updateEmail
        [{ id := "u1", email := "old@b.c", firstName := none,
           lastName := none, role := "admin", passwordHash := none,
           profileImageUrl := none }] "u1" "new@b.c")
      { cookieToken := some (generateToken
          { id := "u1", email := "old@b.c", role := "admin" } "s" 0) }
      "s" 1 = MeResult.ok "u1" "old@b.c" "admin"
    ∧ getUser
        (updateEmail
          [{ id := "u1", email := "old@b.c", firstName := none,
             lastName := none, role := "admin", passwordHash := none,
             profileImageUrl := none }] "u1" "new@b.c") "u1" =
      some { id := "u1", email := "new@b.c", firstName := none,
             lastName := none, role := "admin", passwordHash := none,
             profileImageUrl := none } :=
  current_admin_from_token_payload
    [{ id := "u1", email := "old@b.c", firstName := none, lastName := none,
       role := "admin", passwordHash := none, profileImageUrl := none }]
    { id := "u1", email := "old@b.c", firstName := none, lastName := none,
      role := "admin", passwordHash := none, profileImageUrl := none }
    "s" 0 1 "new@b.c" rfl rfl (by decide)

/-- Helper: one unfolding step of `runRequests`. -/
theorem runRequests_cons (cfg : RateLimitConfig) (st : RateState)
    (t : Nat) (s : Bool) (rest : List (Nat × Bool)) :
    runRequests cfg st ((t, s) :: rest) =
      ((rateRequest cfg st t s).1 ::
        (runRequests cfg (rateRequest cfg st t s).2 rest).1,
       (runRequests cfg (rateRequest cfg st t s).2 rest).2) := by
  cases hr : rateRequest cfg st t s with
  | mk d st1 => simp [runRequests, hr]

/-- Helper: a failed attempt inside the open window while the counter is
below the limit is admitted and adds one hit. -/
theorem rateRequest_fail_step (j R s : Nat) (hs : s < R) (hj : j < 5) :
    rateRequest loginRateLimitConfig { hits := j, resetAt := R } s false =
      (RateDecision.allowed, { hits := j + 1, resetAt := R }) := by
  have hmax : ¬(loginRateLimitConfig.maxHits <
      ({ hits := j, resetAt := R } : RateState).hits + 1) := by
    show ¬(5 < j + 1)
    omega
  simp [rateRequest, hs, hmax]

/-- Helper: from a state with `j` hits and an open window, a run of failed
attempts inside the window is admitted wholly as long as the counter stays
within `max`, each attempt adding one hit. -/
theorem runRequests_failures (rest : List Nat) : ∀ (j R : Nat),
    (∀ s ∈ rest, s < R) → j + rest.length ≤ 5 →
    runRequests loginRateLimitConfig { hits := j, resetAt := R }
      (rest.map (fun s => (s, false))) =
      (List.replicate rest.length RateDecision.allowed,
       { hits := j + rest.length, resetAt := R }) := by
  induction rest with
  | nil =>
    intro j R _ _
    simp [runRequests]
  | cons s rest ih =>
    intro j R h hle
    have hs : s < R := h s (List.mem_cons_self _ _)
    have h' : ∀ x ∈ rest, x < R := fun x hx => h x (List.mem_cons_of_mem _ hx)
    rw [List.length_cons] at hle
    have step := rateRequest_fail_step j R s hs (by omega)
    have harr : j + 1 + rest.length = j + (rest.length + 1) := by omega
    simp only [List.map_cons, runRequests_cons, step,
      ih (j + 1) R h' (by omega), List.replicate_succ, List.length_cons,
      harr]

/-- Helper: `runRequests` distributes over list append. -/
theorem runRequests_append (cfg : RateLimitConfig)
    (l1 l2 : List (Nat × Bool)) : ∀ st,
    runRequests cfg st (l1 ++ l2) =
      ((runRequests cfg st l1).1 ++
        (runRequests cfg (runRequests cfg st l1).2 l2).1,
       (runRequests cfg (runRequests cfg st l1).2 l2).2) := by
  induction l1 with
  | nil =>
    intro st
    simp [runRequests]
  | cons p l1 ih =>
    intro st
    obtain ⟨t, s⟩ := p
    cases hr : rateRequest cfg st t s with
    | mk d st1 => simp [runRequests, hr, ih st1]

/-- C7 (amended): the login rate limiter admits up to 5 non-successful
attempts from one address inside the 15-minute window; the 6th
non-successful attempt in that window is rejected with 429 and the reason
code RATE_LIMITED; a request that ends successfully is excluded from the
count (its own hit is given back, leaving the counter exactly as before) —
but prior failed attempts remain counted, it does not reset the address's
count. -/
theorem login_rate_limit_amended :
    (∀ t (rest : List Nat),
      (∀ s ∈ rest, s < t + loginRateLimitConfig.windowMs) →
      rest.length ≤ 4 →
      (runRequests loginRateLimitConfig rateInit
        ((t :: rest).map (fun s => (s, false)))).1 =
        List.replicate (rest.length + 1) RateDecision.allowed)
    ∧ (∀ t s1 s2 s3 s4 s5,
        s1 < t + loginRateLimitConfig.windowMs →
        s2 < t + loginRateLimitConfig.windowMs →
        s3 < t + loginRateLimitConfig.windowMs →
        s4 < t + loginRateLimitConfig.windowMs →
        s5 < t + loginRateLimitConfig.windowMs →
      (runRequests loginRateLimitConfig rateInit
        ([t, s1, s2, s3, s4, s5].map (fun s => (s, false)))).1 =
        [RateDecision.allowed, RateDecision.allowed, RateDecision.allowed,
         RateDecision.allowed, RateDecision.allowed,
         RateDecision.limited 429 "RATE_LIMITED"
           "Too many login attempts. Please try again in 15 minutes."])
    ∧ (∀ (st : RateState) t, t < st.resetAt →
        st.hits < loginRateLimitConfig.maxHits →
        rateRequest loginRateLimitConfig st t true =
          (RateDecision.allowed, st)) := by
  have hm1 : ¬(loginRateLimitConfig.maxHits < 1) := by
    show ¬(5 < 1)
    omega
  have first : ∀ t, rateRequest loginRateLimitConfig rateInit t false =
      (RateDecision.allowed,
       { hits := 1, resetAt := t + loginRateLimitConfig.windowMs }) := by
    intro t
    simp [rateRequest, rateInit, hm1]
  refine ⟨?_, ?_, ?_⟩
  · intro t rest h hlen
    simp only [List.map_cons, runRequests_cons, first t,
      runRequests_failures rest 1 (t + loginRateLimitConfig.windowMs) h
        (by omega), List.replicate_succ]
  · intro t s1 s2 s3 s4 s5 h1 h2 h3 h4 h5
    have hmid := runRequests_failures [s1, s2, s3, s4] 1
      (t + loginRateLimitConfig.windowMs)
      (by
        intro x hx
        simp only [List.mem_cons, List.not_mem_nil, or_false] at hx
        rcases hx with rfl | rfl | rfl | rfl <;> assumption)
      (by simp)
    have hm6 : loginRateLimitConfig.maxHits <
        ({ hits := 5,
           resetAt := t + loginRateLimitConfig.windowMs } : RateState).hits
          + 1 := by
      show 5 < 6
      omega
    have hlast : rateRequest loginRateLimitConfig
        { hits := 5, resetAt := t + loginRateLimitConfig.windowMs } s5
        false =
        (RateDecision.limited 429 "RATE_LIMITED"
          "Too many login attempts. Please try again in 15 minutes.",
         { hits := 6, resetAt := t + loginRateLimitConfig.windowMs }) := by
      have herr : loginRateLimitConfig.errorCode = "RATE_LIMITED" := rfl
      have hmsg : loginRateLimitConfig.message =
        "Too many login attempts. Please try again in 15 minutes." := rfl
      simp [rateRequest, h5, hm6, herr, hmsg]
    have hsplit :
        (List.map (fun s => (s, false)) [t, s1, s2, s3, s4, s5] :
          List (Nat × Bool)) =
        (t, false) ::
          ((List.map (fun s => (s, false)) [s1, s2, s3, s4]) ++
            [(s5, false)]) := rfl
    rw [hsplit, runRequests_cons, first t, runRequests_append, hmid]
    simp [runRequests, hlast]
  · intro st t ht hhits
    have hmax : ¬(loginRateLimitConfig.maxHits < st.hits + 1) := by
      have : st.hits < 5 := hhits
      show ¬(5 < st.hits + 1)
      omega
    have hskip : loginRateLimitConfig.skipSuccessfulRequests = true := rfl
    simp [rateRequest, ht, hmax, hskip]

/-- Witness for C7 (amended) at concrete times: a burst of three failures
is fully admitted; a burst of six failures has its sixth rejected with
RATE_LIMITED; a successful request under the limit leaves the counter
unchanged. -/
theorem login_rate_limit_amended_witness :
    (runRequests loginRateLimitConfig rateInit
      [(0, false), (1, false), (2, false)]).1 =
      List.replicate 3 RateDecision.allowed
    ∧ (runRequests loginRateLimitConfig rateInit
      [(0, false), (1, false), (2, false), (3, false), (4, false),
       (5, false)]).1 =
      [RateDecision.allowed, RateDecision.allowed, RateDecision.allowed,
       RateDecision.allowed, RateDecision.allowed,
       RateDecision.limited 429 "RATE_LIMITED"
         "Too many login attempts. Please try again in 15 minutes."]
    ∧ rateRequest loginRateLimitConfig { hits := 3, resetAt := 10 } 5
        true = (RateDecision.allowed, { hits := 3, resetAt := 10 }) :=
  ⟨login_rate_limit_amended.1 0 [1, 2] (by decide) (by decide),
   login_rate_limit_amended.2.1 0 1 2 3 4 5 (by decide) (by decide)
     (by decide) (by decide) (by decide),
   login_rate_limit_amended.2.2 { hits := 3, resetAt := 10 } 5 (by decide)
     (by decide)⟩

/-- Counterexample to C7 as stated, in both clauses it gets wrong.
Reset clause: after four failures and one success at the same address, the
claim's reset semantics gives the address an effective count of 1
non-successful attempt (far below 5), so the next two failures should both
be admitted; the code admits the sixth request but rejects the seventh
with 429 RATE_LIMITED, because the successful login only handed back its
own hit and did not reset the counter.
Trailing-window clause: the limiter's window is anchored at the address's
first attempt, not trailing; with failures at times 0, 500000, 600000,
900000, 900001, 900002 (milliseconds), the next failure at time 1000000
has 5 recorded non-successful attempts inside its trailing 15-minute
(900000 ms) window, so the claim demands a 429 rejection, yet the code
admits all seven requests — the first window expired at 900000 and the
counter restarted. -/
theorem login_rate_limit_reset_counterexample :
    ((runRequests loginRateLimitConfig rateInit
      [(0, false), (0, false), (0, false), (0, false), (0, true),
       (0, false), (0, false)]).1 =
      [RateDecision.allowed, RateDecision.allowed, RateDecision.allowed,
       RateDecision.allowed, RateDecision.allowed, RateDecision.allowed,
       RateDecision.limited 429 "RATE_LIMITED"
         "Too many login attempts. Please try again in 15 minutes."]
    ∧ claimEffectiveCount [false, false, false, false, true, false] = 1
    ∧ 1 < 5)
    ∧ ((runRequests loginRateLimitConfig rateInit
      [(0, false), (500000, false), (600000, false), (900000, false),
       (900001, false), (900002, false), (1000000, false)]).1 =
      List.replicate 7 RateDecision.allowed
    ∧ trailingFailureCount
        [(0, false), (500000, false), (600000, false), (900000, false),
         (900001, false), (900002, false)] 1000000
        loginRateLimitConfig.windowMs = 5
    ∧ 5 ≤ 5) := by
  exact ⟨⟨by decide, by decide, by decide⟩,
    ⟨by decide, by decide, by decide⟩⟩

end Evolvouz
